import Mathlib

/-!
Verification development for the gated Telegram file-distribution system.

The definitions below are a shallow embedding of the entitlement pipeline:
user entitlement records, file records and verification tokens
(src/database/operations/users.py, files.py, verification.py), the
delivery path (src/user_bot/handlers/download.py), the verification
callback (src/user_bot/handlers/verification.py), the token validator
(src/user_bot/utils/token.py), the web landing route
(src/verification_server/routes/shortlink.py), the mint paths
(src/user_bot/utils/verification.py, handlers/verification.py) and the
membership check (src/user_bot/utils/force_sub.py).

Timestamps are modelled as integers (epoch seconds); Mongo documents as
closed record types; token statuses as the literal strings the source
stores ("pending", "in_progress", "completed", "expired"); fallible
lookups as Option.
-/

/-- User entitlement document, fields as created by create_user and mutated by
verify_user_manually / increment_user_file_access in
src/database/operations/users.py. -/
structure UserRecord where
  user_id : Int
  is_verified : Bool
  verified_at : Option Int
  expires_at : Option Int
  files_accessed_count : Nat
  files_accessed : List Int
  last_access : Int
  verified_by : Option Int
  updated_at : Option Int
deriving DecidableEq

/-- File document, fields used by the delivery path
(src/database/operations/files.py). -/
structure FileRecord where
  post_no : Int
  password : String
  storage_message_id : Int
  download_count : Nat
  last_downloaded_at : Option Int
deriving DecidableEq

/-- Verification token document as created by create_verification_token in
src/database/operations/verification.py. The source stores the status as one
of the strings "pending", "in_progress", "completed", "expired"; the only
timestamps it ever writes are created_at, expires_at, completed_at and
updated_at (there is no separate advanced_at field; update_token_status
re-stamps updated_at on every status write). -/
structure TokenRecord where
  token_id : String
  user_id : Int
  status : String
  created_at : Int
  expires_at : Int
  completed_at : Option Int
  updated_at : Int
deriving DecidableEq

/-- Mongo \x7b$addToSet\x7d on a list-valued field: append iff not present. -/
def addToSet (xs : List Int) (x : Int) : List Int :=
  if x ∈ xs then xs else xs ++ [x]

/-- increment_user_file_access (src/database/operations/users.py, lines
488-519): unconditionally increments files_accessed_count, adds post_no to
files_accessed as a set, stamps last_access. -/
def increment_user_file_access (u : UserRecord) (post_no now : Int) : UserRecord :=
  { u with
    files_accessed_count := u.files_accessed_count + 1
    files_accessed := addToSet u.files_accessed post_no
    last_access := now }

/-- increment_download_count (src/database/operations/files.py): increments
download_count and stamps last_downloaded_at. -/
def increment_download_count (f : FileRecord) (now : Int) : FileRecord :=
  { f with download_count := f.download_count + 1, last_downloaded_at := some now }

/-- Outcome of the delivery path send_file_to_user
(src/user_bot/handlers/download.py). -/
inductive DeliverOutcome
  | fileNotFound
  | userNotFound
  | limitReached
  | sendFailed
  | delivered
deriving DecidableEq

/-- Post-state of one delivery attempt: the reply rendered, the user row and
the file row after the attempt. -/
structure DeliverState where
  outcome : DeliverOutcome
  user : Option UserRecord
  file : Option FileRecord
deriving DecidableEq

/-- send_file_to_user (src/user_bot/handlers/download.py, lines 32-86).
Resolves the file, resolves the user, rejects when files_accessed_count is at
least the literal 3 (the limit is hard-coded at the call site), then attempts
the gateway copy; only on gateway success does it run
increment_download_count and increment_user_file_access. A gateway failure
(gateway_ok = false, the except branch) aborts before either counter update. -/
def send_file_to_user (fileOpt : Option FileRecord) (userOpt : Option UserRecord)
    (gateway_ok : Bool) (now : Int) : DeliverState :=
  match fileOpt with
  | none => ⟨.fileNotFound, userOpt, none⟩
  | some f =>
    match userOpt with
    | none => ⟨.userNotFound, none, some f⟩
    | some u =>
      if u.files_accessed_count ≥ 3 then ⟨.limitReached, some u, some f⟩
      else if gateway_ok then
        ⟨.delivered, some (increment_user_file_access u f.post_no now),
          some (increment_download_count f now)⟩
      else ⟨.sendFailed, some u, some f⟩

/-- validate_token (src/user_bot/utils/token.py, lines 127-179): exists,
user matches, not past expires_at, not completed, in_progress, and at least
5 seconds since created_at. There is no check against any advance
timestamp. -/
def validate_token (tokenOpt : Option TokenRecord) (user_id now : Int) :
    Bool × String :=
  match tokenOpt with
  | none => (false, "token_not_found")
  | some t =>
    if t.user_id ≠ user_id then (false, "token_mismatch")
    else if t.expires_at < now then (false, "token_expired")
    else if t.status = "completed" then (false, "token_reused")
    else if t.status ≠ "in_progress" then (false, "invalid_state")
    else if now - t.created_at < 5 then (false, "too_fast")
    else (true, "valid")

/-- Acceptance predicate as the specification words it (spec section 4.3,
validate, conditions 1-5), with the advance timestamp read from updated_at,
the only stamp the advance path writes: token exists, user matches, stored
status is in_progress, now at most expires_at, at least
min_traversal_seconds = 5 since created_at, and at least
min_dwell_seconds = 3 since the advance stamp. -/
def specValidateAccepts (tokenOpt : Option TokenRecord) (user_id now : Int) : Bool :=
  match tokenOpt with
  | none => false
  | some t =>
    t.user_id == user_id && t.status == "in_progress" &&
      decide (now ≤ t.expires_at) && decide (5 ≤ now - t.created_at) &&
      decide (3 ≤ now - t.updated_at)

/-- update_token_status (src/database/operations/verification.py, lines
116-158): unconditional \x7b$set\x7d of status and updated_at; completed_at is set
from the argument, or to now when the new status is "completed". -/
def update_token_status (t : TokenRecord) (status : String)
    (completed_at : Option Int) (now : Int) : TokenRecord :=
  let base := { t with status := status, updated_at := now }
  match completed_at with
  | some c => { base with completed_at := some c }
  | none => if status = "completed" then { base with completed_at := some now } else base

/-- mark_token_in_progress (src/database/operations/verification.py, lines
161-176): update_token_status with status "in_progress". -/
def mark_token_in_progress (t : TokenRecord) (now : Int) : TokenRecord :=
  update_token_status t "in_progress" none now

/-- mark_token_completed (src/database/operations/verification.py, lines
179-194): update_token_status with status "completed" and completed_at now. -/
def mark_token_completed (t : TokenRecord) (now : Int) : TokenRecord :=
  update_token_status t "completed" (some now) now

/-- Outcome of the web landing route handle_redirect
(src/verification_server/routes/shortlink.py). -/
inductive RedirectOutcome
  | notFound
  | expired
  | alreadyUsed
  | redirected
deriving DecidableEq

/-- handle_redirect (src/verification_server/routes/shortlink.py, lines
22-83), after token decoding: 404 when the token record is missing, 410 when
expires_at has passed or the stored status is "completed", otherwise
mark_token_in_progress and 302-redirect. The stored status is not otherwise
inspected: "pending", "in_progress" and "expired" all reach the advance. -/
def handle_redirect (tokenOpt : Option TokenRecord) (now : Int) :
    RedirectOutcome × Option TokenRecord :=
  match tokenOpt with
  | none => (.notFound, none)
  | some t =>
    if t.expires_at < now then (.expired, some t)
    else if t.status = "completed" then (.alreadyUsed, some t)
    else (.redirected, some (mark_token_in_progress t now))

/-- verify_user_manually (src/database/operations/users.py, lines 319-372):
sets is_verified, verified_at = now, expires_at = now + hours,
files_accessed_count = 0, files_accessed = [], verified_by, updated_at. -/
def verify_user_manually (u : UserRecord) (hours : Int) (by_id : Option Int)
    (now : Int) : UserRecord :=
  { u with
    is_verified := true
    verified_at := some now
    expires_at := some (now + hours * 3600)
    files_accessed_count := 0
    files_accessed := []
    verified_by := by_id
    updated_at := some now }

/-- Screen rendered by the bot-side verification callback
(src/user_bot/handlers/verification.py): the generic token-error template,
the bypass-detected template, or the success template. -/
inductive CallbackOutcome
  | tokenError
  | bypassDetected
  | verifiedOk
deriving DecidableEq

/-- Post-state of one verification callback: the screen rendered, the token
row and the user row after the callback. -/
structure CallbackState where
  outcome : CallbackOutcome
  token : Option TokenRecord
  user : UserRecord
deriving DecidableEq

/-- handle_verification_callback (src/user_bot/handlers/verification.py,
lines 147-212). Checks in source order: token missing, user mismatch, past
expires_at, status "completed" (all four render the token-error template);
status other than "in_progress", or fewer than 5 seconds since created_at
(both render the bypass-detected template); otherwise mark_token_completed
and verify_user_manually with hours from the verification_period_hours
setting. Every rejection branch returns before any store write. -/
def handle_verification_callback (tokenOpt : Option TokenRecord) (u : UserRecord)
    (user_id : Int) (hours : Int) (now : Int) : CallbackState :=
  match tokenOpt with
  | none => ⟨.tokenError, none, u⟩
  | some t =>
    if t.user_id ≠ user_id then ⟨.tokenError, some t, u⟩
    else if t.expires_at < now then ⟨.tokenError, some t, u⟩
    else if t.status = "completed" then ⟨.tokenError, some t, u⟩
    else if t.status ≠ "in_progress" then ⟨.bypassDetected, some t, u⟩
    else if now - t.created_at < 5 then ⟨.bypassDetected, some t, u⟩
    else ⟨.verifiedOk, some (mark_token_completed t now),
      verify_user_manually u hours (some 0) now⟩

/-- A token is non-terminal when its stored status is "pending" or
"in_progress" (spec: MINTED or IN_FLIGHT). -/
def isNonTerminal (t : TokenRecord) : Bool :=
  t.status == "pending" || t.status == "in_progress"

/-- has_user_pending_token (src/database/operations/verification.py, lines
427-450): a token of this user with status "pending" and expires_at in the
future exists. Tokens whose status is "in_progress" do not count. -/
def has_user_pending_token (tokens : List TokenRecord) (uid now : Int) : Bool :=
  tokens.any (fun t =>
    t.user_id == uid && t.status == "pending" && decide (now < t.expires_at))

/-- invalidate_user_tokens (src/database/operations/verification.py, lines
453-475): every token of the user with status "pending" or "in_progress" is
set to "expired" (updated_at re-stamped). -/
def invalidate_user_tokens (tokens : List TokenRecord) (uid now : Int) :
    List TokenRecord :=
  tokens.map (fun t =>
    if t.user_id == uid && isNonTerminal t
    then { t with status := "expired", updated_at := now }
    else t)

/-- The document create_verification_token inserts
(src/database/operations/verification.py, lines 17-59): status "pending",
created_at = now, expires_at = now + expiry. -/
def newToken (token_id : String) (uid now expiry : Int) : TokenRecord :=
  { token_id := token_id, user_id := uid, status := "pending",
    created_at := now, expires_at := now + expiry,
    completed_at := none, updated_at := now }

/-- create_verification_token (src/database/operations/verification.py):
insert of a fresh pending token. -/
def create_verification_token (tokens : List TokenRecord) (token_id : String)
    (uid now expiry : Int) : List TokenRecord :=
  tokens ++ [newToken token_id uid now expiry]

/-- Mint path of generate_verification_link (src/user_bot/utils/verification.py,
lines 124-190): invalidate the user's old tokens only when
has_user_pending_token holds, then insert the fresh pending token. -/
def generate_verification_link_mint (tokens : List TokenRecord) (token_id : String)
    (uid now expiry : Int) : List TokenRecord :=
  let tokens1 := if has_user_pending_token tokens uid now
    then invalidate_user_tokens tokens uid now
    else tokens
  create_verification_token tokens1 token_id uid now expiry

/-- Mint path of handle_verify_now (src/user_bot/handlers/verification.py,
lines 67-113): inserts a fresh pending token with no invalidation of
existing tokens. -/
def handle_verify_now_mint (tokens : List TokenRecord) (token_id : String)
    (uid now expiry : Int) : List TokenRecord :=
  create_verification_token tokens token_id uid now expiry

/-- Number of non-terminal tokens a user holds in the store. -/
def outstanding (tokens : List TokenRecord) (uid : Int) : Nat :=
  (tokens.filter (fun t => t.user_id == uid && isNonTerminal t)).length

/-- Result of the chat-gateway membership query consumed by
check_user_subscribed: a status string, or a gateway error
(TelegramError). -/
inductive MemberStatusQuery
  | ok (status : String)
  | gatewayError
deriving DecidableEq

/-- check_user_subscribed (src/user_bot/utils/force_sub.py, lines 21-64):
member iff the query succeeds and the status is not in ["left", "kicked"];
a gateway error (the TelegramError except branch) yields not-member. -/
def check_user_subscribed (q : MemberStatusQuery) : Bool :=
  match q with
  | .ok status => !(status == "left" || status == "kicked")
  | .gatewayError => false

/-- Active force-subscribe channel entry, the fields
get_unsubscribed_channels reads (src/database/operations/channels.py). -/
structure ChannelEntry where
  channel_id : Int
  channel_username : String
deriving DecidableEq

/-- get_unsubscribed_channels (src/user_bot/utils/force_sub.py, lines
67-114): walks the active channels in stored order, queries each membership
via check_user_subscribed, collects the channels the user is not subscribed
to, and reports all-subscribed iff that list is empty (an empty channel list
passes trivially). Each channel is paired with its gateway query result. -/
def get_unsubscribed_channels (channels : List (ChannelEntry × MemberStatusQuery)) :
    Bool × List ChannelEntry :=
  let unsubscribed :=
    (channels.filter (fun c => !check_user_subscribed c.2)).map Prod.fst
  (unsubscribed.length == 0, unsubscribed)

/-- Reasons returned by check_verification_eligibility
(src/user_bot/utils/verification.py). -/
inductive EligReason
  | userNotFound
  | notVerified
  | noExpiry
  | verExpired
  | limitReached
  | eligible
deriving DecidableEq

/-- check_verification_eligibility (src/user_bot/utils/verification.py,
lines 492-550): not verified, missing or past expires_at, then the quota
check files_accessed_count against the literal 3. -/
def check_verification_eligibility (userOpt : Option UserRecord) (now : Int) :
    EligReason :=
  match userOpt with
  | none => .userNotFound
  | some u =>
    if !u.is_verified then .notVerified
    else
      match u.expires_at with
      | none => .noExpiry
      | some e =>
        if e < now then .verExpired
        else if u.files_accessed_count ≥ 3 then .limitReached
        else .eligible

/-- Sample verified user who has already seen post 7 once. -/
def sampleUser : UserRecord :=
  { user_id := 42, is_verified := true, verified_at := some 1000,
    expires_at := some 87400, files_accessed_count := 1,
    files_accessed := [7], last_access := 1000,
    verified_by := some 0, updated_at := some 1000 }

/-- Sample file record for post 7. -/
def sampleFile : FileRecord :=
  { post_no := 7, password := "pw", storage_message_id := 100,
    download_count := 5, last_downloaded_at := some 1200 }

/-- Token in flight: user 42, created 1000, expires 1600, advanced at 1008. -/
def c2Token : TokenRecord :=
  { token_id := "tok2", user_id := 42, status := "in_progress",
    created_at := 1000, expires_at := 1600, completed_at := none,
    updated_at := 1008 }

/-- Token whose stored status was forced to "expired" while its expires_at
is still in the future. -/
def c3Token : TokenRecord :=
  { token_id := "tok3", user_id := 42, status := "expired",
    created_at := 1000, expires_at := 1600, completed_at := none,
    updated_at := 1005 }

/-- Token in flight used for advance and acceptance witnesses. -/
def c3InFlight : TokenRecord :=
  { token_id := "tok3b", user_id := 42, status := "in_progress",
    created_at := 1000, expires_at := 1600, completed_at := none,
    updated_at := 1003 }

/-- In-flight token held by user 42 while a fresh token is minted. -/
def c4InFlightToken : TokenRecord :=
  { token_id := "tok4", user_id := 42, status := "in_progress",
    created_at := 900, expires_at := 1500, completed_at := none,
    updated_at := 905 }

/-- Pending token held by user 42 while a fresh token is minted. -/
def c4PendingToken : TokenRecord :=
  { token_id := "tokp", user_id := 42, status := "pending",
    created_at := 900, expires_at := 1500, completed_at := none,
    updated_at := 900 }

/-- Pending token of user 42, expiring at 1600. -/
def c5Pending : TokenRecord :=
  { token_id := "tok5", user_id := 42, status := "pending",
    created_at := 1000, expires_at := 1600, completed_at := none,
    updated_at := 1000 }

/-- Verified user who has already consumed 4 deliveries. -/
def c6User4 : UserRecord :=
  { user_id := 42, is_verified := true, verified_at := some 1000,
    expires_at := some 87400, files_accessed_count := 4,
    files_accessed := [7, 8, 9, 10], last_access := 1200,
    verified_by := some 0, updated_at := some 1000 }

/-- Sample active force-subscribe channel. -/
def sampleChannel : ChannelEntry :=
  { channel_id := -100, channel_username := "chan" }

/-- In-flight token of user 42 that satisfies every acceptance check at
time 1010. -/
def c7InFlight : TokenRecord :=
  { token_id := "tok7", user_id := 42, status := "in_progress",
    created_at := 1000, expires_at := 1600, completed_at := none,
    updated_at := 1003 }

/-- Claim C1 counterexample: post 7 is already in sampleUser's
files_accessed, yet a re-delivery of post 7 ends delivered with
files_accessed_count incremented from 1 to 2 — the delivery path does not
leave the counter unchanged on re-access. -/
theorem c1_redelivery_counterexample :
    (7 : Int) ∈ sampleUser.files_accessed ∧
    sampleUser.files_accessed_count = 1 ∧
    sampleFile.post_no = 7 ∧
    (send_file_to_user (some sampleFile) (some sampleUser) true 5000).outcome
      = .delivered ∧
    (send_file_to_user (some sampleFile) (some sampleUser) true 5000).user
      = some { sampleUser with files_accessed_count := 2, last_access := 5000 } := by
  decide

/-- Claim C1 (amended): re-delivery of a post already in files_accessed,
when the quota check passes and the gateway send succeeds, leaves the
files_accessed set unchanged (the set add is idempotent) but increments
files_accessed_count by exactly one and re-stamps last_access — every
successful delivery consumes quota, re-access included. -/
theorem c1_amended_redelivery_increments (u : UserRecord) (f : FileRecord)
    (now : Int) (hmem : f.post_no ∈ u.files_accessed)
    (hlt : u.files_accessed_count < 3) :
    send_file_to_user (some f) (some u) true now =
      ⟨.delivered,
        some { u with
                 files_accessed_count := u.files_accessed_count + 1,
                 last_access := now },
        some (increment_download_count f now)⟩ := by
  have h3 : ¬ u.files_accessed_count ≥ 3 := by omega
  simp [send_file_to_user, increment_user_file_access, addToSet, h3, hmem]

/-- Claim C1 amended theorem applied at the concrete re-access input. -/
theorem c1_amended_redelivery_increments_witness :
    send_file_to_user (some sampleFile) (some sampleUser) true 5000 =
      ⟨.delivered,
        some { sampleUser with files_accessed_count := 2, last_access := 5000 },
        some (increment_download_count sampleFile 5000)⟩ :=
  c1_amended_redelivery_increments sampleUser sampleFile 5000 (by decide) (by decide)

/-- Claim C2 counterexample: a token satisfying conditions (1)-(4) — exists,
user matches, in flight, not expired, 10 seconds since creation — but whose
advance stamp is only 2 seconds old (violating the min_dwell_seconds = 3
condition (5)) is nevertheless ACCEPTED by validate_token: the code performs
no dwell check against any advance timestamp. -/
theorem c2_dwell_counterexample :
    validate_token (some c2Token) 42 1010 = (true, "valid") ∧
    specValidateAccepts (some c2Token) 42 1010 = false ∧
    (1010 : Int) - c2Token.updated_at < 3 := by
  decide

/-- Claim C2 (amended): validate_token accepts iff exactly four conditions
hold — the token's user matches, now is at most expires_at, the stored
status is in_progress, and at least min_traversal_seconds = 5 have elapsed
since created_at. There is no fifth dwell condition. -/
theorem c2_amended_validate_iff (t : TokenRecord) (uid now : Int) :
    validate_token (some t) uid now = (true, "valid") ↔
      (t.user_id = uid ∧ now ≤ t.expires_at ∧ t.status = "in_progress" ∧
        5 ≤ now - t.created_at) := by
  constructor
  · intro hv
    simp only [validate_token] at hv
    split_ifs at hv with h1 h2 h3 h4 h5
    · simp at hv
    · simp at hv
    · simp at hv
    · simp at hv
    · simp at hv
    · exact ⟨not_not.mp h1, not_lt.mp h2, not_not.mp h4, not_lt.mp h5⟩
  · rintro ⟨hu, he, hs, hd⟩
    simp only [validate_token]
    rw [if_neg (not_not.mpr hu), if_neg (not_lt.mpr he),
      if_neg (by rw [hs]; decide), if_neg (not_not.mpr hs),
      if_neg (not_lt.mpr hd)]

/-- Claim C3 counterexample: a token whose stored status is "expired" (with
expires_at still in the future) is not left unchanged by the web landing
route — handle_redirect advances it to "in_progress" and re-stamps
updated_at, so advance is not a MINTED-only compare-and-swap. -/
theorem c3_advance_counterexample :
    c3Token.status = "expired" ∧
    handle_redirect (some c3Token) 1010 =
      (.redirected, some { c3Token with status := "in_progress", updated_at := 1010 }) ∧
    ({ c3Token with status := "in_progress", updated_at := 1010 } : TokenRecord)
      ≠ c3Token := by
  decide

/-- Claim C3 (amended): mark_token_in_progress is an unconditional status
write — for every starting status it sets status to "in_progress" and
re-stamps updated_at; and the web landing route advances every found token
that is neither past expires_at nor completed, including tokens whose stored
status is already "in_progress" (re-stamped) or "expired" (resurrected). -/
theorem c3_amended_advance_unconditional (t : TokenRecord) (now : Int) :
    mark_token_in_progress t now =
      { t with status := "in_progress", updated_at := now } ∧
    (¬ t.expires_at < now → t.status ≠ "completed" →
      handle_redirect (some t) now =
        (.redirected, some { t with status := "in_progress", updated_at := now })) := by
  constructor
  · simp [mark_token_in_progress, update_token_status]
  · intro h1 h2
    simp [handle_redirect, h1, h2, mark_token_in_progress, update_token_status]

/-- Claim C3 amended theorem applied at a concrete in-flight token: the
second load of the landing page still advances and re-stamps updated_at. -/
theorem c3_amended_advance_unconditional_witness :
    handle_redirect (some c3InFlight) 1010 =
      (.redirected, some { c3InFlight with status := "in_progress", updated_at := 1010 }) :=
  (c3_amended_advance_unconditional c3InFlight 1010).2 (by decide) (by decide)

/-- Claim C4 counterexample: user 42 holds a single in-flight (non-terminal)
token; has_user_pending_token is false (it looks only for status "pending"),
so the mint path of generate_verification_link performs no invalidation, and
the verify-now mint path never invalidates — after either mint the user
holds two non-terminal tokens, not exactly one. -/
theorem c4_mint_counterexample :
    isNonTerminal c4InFlightToken = true ∧
    has_user_pending_token [c4InFlightToken] 42 1010 = false ∧
    outstanding (generate_verification_link_mint [c4InFlightToken] "fresh" 42 1010 600) 42
      = 2 ∧
    outstanding (handle_verify_now_mint [c4InFlightToken] "fresh" 42 1010 600) 42
      = 2 := by
  decide

/-- Invalidation helper: after invalidate_user_tokens the user holds no
non-terminal token. -/
theorem outstanding_invalidate (tokens : List TokenRecord) (uid now : Int) :
    outstanding (invalidate_user_tokens tokens uid now) uid = 0 := by
  induction tokens with
  | nil => rfl
  | cons t ts ih =>
    unfold invalidate_user_tokens outstanding at ih ⊢
    simp only [List.map_cons, List.filter_cons]
    by_cases h : (t.user_id == uid && isNonTerminal t) = true
    · rw [if_pos h]
      simp only [isNonTerminal]
      simp only [show
        ((({ t with status := "expired", updated_at := now } : TokenRecord).user_id == uid) &&
          ((({ t with status := "expired", updated_at := now } : TokenRecord).status == "pending") ||
           (({ t with status := "expired", updated_at := now } : TokenRecord).status == "in_progress"))) = false
        by simp]
      exact ih
    · rw [if_neg h]
      simp only [Bool.not_eq_true] at h
      simp only [h]
      exact ih

/-- Claim C4 (amended): the generate_verification_link mint path invalidates
the user's old tokens only when they hold a non-expired pending token — in
that case all their non-terminal tokens are expired first and after the mint
they hold exactly one non-terminal token; when has_user_pending_token is
false (for instance when their only outstanding token is in flight) the new
pending token is appended with no invalidation; and the handle_verify_now
mint path always appends without invalidation. -/
theorem c4_amended_mint (tokens : List TokenRecord) (token_id : String)
    (uid now expiry : Int) :
    (has_user_pending_token tokens uid now = true →
      outstanding (generate_verification_link_mint tokens token_id uid now expiry) uid
        = 1) ∧
    (has_user_pending_token tokens uid now = false →
      generate_verification_link_mint tokens token_id uid now expiry =
        tokens ++ [newToken token_id uid now expiry]) ∧
    handle_verify_now_mint tokens token_id uid now expiry =
      tokens ++ [newToken token_id uid now expiry] := by
  refine ⟨?_, ?_, rfl⟩
  · intro h
    unfold generate_verification_link_mint create_verification_token
    rw [if_pos h]
    have h0 := outstanding_invalidate tokens uid now
    unfold outstanding at h0 ⊢
    rw [List.filter_append, List.length_append, h0]
    simp [newToken, isNonTerminal]
  · intro h
    unfold generate_verification_link_mint create_verification_token
    rw [if_neg (by simp [h])]

/-- Claim C4 amended theorem applied at a concrete store holding one pending
token: after the mint the user holds exactly one non-terminal token. -/
theorem c4_amended_mint_witness :
    outstanding (generate_verification_link_mint [c4PendingToken] "fresh" 42 1010 600) 42
      = 1 :=
  (c4_amended_mint [c4PendingToken] "fresh" 42 1010 600).1 (by decide)

/-- Claim C5 counterexample: a token observed with stored status "pending"
(MINTED) but past its expires_at is classified by the bot callback as the
plain token-error screen, not as bypass-detected — the expiry check fires
before the state check. -/
theorem c5_minted_counterexample :
    c5Pending.status = "pending" ∧
    c5Pending.expires_at < 2000 ∧
    handle_verification_callback (some c5Pending) sampleUser 42 24 2000 =
      ⟨.tokenError, some c5Pending, sampleUser⟩ := by
  decide

/-- Claim C5 (amended): a validate that observes a token with stored status
"pending" is classified as bypass-detected provided the token passed the
earlier checks — it belongs to the calling user and is not past expires_at;
an expired or mismatched MINTED token renders the plain token-error
screen instead. -/
theorem c5_amended_minted_bypass (t : TokenRecord) (u : UserRecord)
    (uid hours now : Int) (hstatus : t.status = "pending")
    (huser : t.user_id = uid) (hexp : ¬ t.expires_at < now) :
    handle_verification_callback (some t) u uid hours now =
      ⟨.bypassDetected, some t, u⟩ := by
  simp only [handle_verification_callback]
  rw [if_neg (not_not.mpr huser), if_neg hexp,
    if_neg (by rw [hstatus]; decide), if_pos (by rw [hstatus]; decide)]

/-- Claim C5 amended theorem applied at a concrete live pending token. -/
theorem c5_amended_minted_bypass_witness :
    handle_verification_callback (some c5Pending) sampleUser 42 24 1010 =
      ⟨.bypassDetected, some c5Pending, sampleUser⟩ :=
  c5_amended_minted_bypass c5Pending sampleUser 42 24 1010 (by decide) (by decide)
    (by decide)

/-- Claim C6: the quota gate compares files_accessed_count against the
literal 3 in both send_file_to_user and check_verification_eligibility. A
user with files_accessed_count = 4 — which equals limit − 1 under a
configured file_access_limit of 5 — is rejected with the quota screen, and
the boundary sits at the constant 3 (count 2 delivers, count 3 rejects)
whatever the file_access_limit setting holds. -/
theorem c6_hardcoded_limit :
    (send_file_to_user (some sampleFile) (some c6User4) true 2000).outcome
      = .limitReached ∧
    check_verification_eligibility (some c6User4) 2000 = .limitReached ∧
    (send_file_to_user (some sampleFile)
        (some { c6User4 with files_accessed_count := 2 }) true 2000).outcome
      = .delivered ∧
    (send_file_to_user (some sampleFile)
        (some { c6User4 with files_accessed_count := 3 }) true 2000).outcome
      = .limitReached := by
  decide

/-- Claim C7: whenever the verification callback accepts, the user record is
reset exactly as the spec states — is_verified true, verified_at = now,
expires_at = now + verification_period_hours, files_accessed_count = 0 and
files_accessed emptied (prior history discarded); verified_by is stamped 0
and updated_at re-stamped by the same write. -/
theorem c7_verification_reset (tokenOpt : Option TokenRecord) (u : UserRecord)
    (uid hours now : Int)
    (h : (handle_verification_callback tokenOpt u uid hours now).outcome
      = .verifiedOk) :
    (handle_verification_callback tokenOpt u uid hours now).user =
      { u with
          is_verified := true, verified_at := some now,
          expires_at := some (now + hours * 3600),
          files_accessed_count := 0, files_accessed := [],
          verified_by := some 0, updated_at := some now } := by
  cases tokenOpt with
  | none => simp [handle_verification_callback] at h
  | some t =>
    simp only [handle_verification_callback] at h ⊢
    split_ifs at h ⊢
    all_goals simp_all [verify_user_manually]

/-- Claim C7 theorem applied at a concrete accepting input. -/
theorem c7_verification_reset_witness :
    (handle_verification_callback (some c7InFlight) sampleUser 42 24 1010).user =
      { sampleUser with
          is_verified := true, verified_at := some 1010,
          expires_at := some (1010 + 24 * 3600),
          files_accessed_count := 0, files_accessed := [],
          verified_by := some 0, updated_at := some 1010 } :=
  c7_verification_reset (some c7InFlight) sampleUser 42 24 1010 (by decide)

/-- Claim C8 counterexample: a gateway status of "unknown" is classified as
MEMBER by check_user_subscribed — the code only excludes "left" and
"kicked", so unknown does not yield NOT_MEMBER as the claim states — and in
consequence the membership gate itself passes: a user whose sole active
channel query returns "unknown" is reported all-subscribed with an empty
unsubscribed list, instead of being asked to re-join. -/
theorem c8_unknown_counterexample :
    check_user_subscribed (.ok "unknown") = true ∧
    get_unsubscribed_channels [(sampleChannel, .ok "unknown")] = (true, []) := by
  decide

/-- Claim C8 (amended): a successful membership query is classified MEMBER
iff the status is neither "left" nor "kicked" — creator, administrator,
member and restricted are MEMBER, left and kicked are NOT_MEMBER, but any
other status string, "unknown" included, is also MEMBER; only a gateway
error yields NOT_MEMBER. At gate level, the unsubscribed subset keeps the
stored channel order and contains exactly the left/kicked/error channels —
a channel whose query returned "unknown" is omitted. -/
theorem c8_amended_membership (s : String) :
    (check_user_subscribed (.ok s) = true ↔ (s ≠ "left" ∧ s ≠ "kicked")) ∧
    check_user_subscribed .gatewayError = false ∧
    check_user_subscribed (.ok "creator") = true ∧
    check_user_subscribed (.ok "administrator") = true ∧
    check_user_subscribed (.ok "member") = true ∧
    check_user_subscribed (.ok "restricted") = true ∧
    check_user_subscribed (.ok "left") = false ∧
    check_user_subscribed (.ok "kicked") = false ∧
    get_unsubscribed_channels
        [({ channel_id := -100, channel_username := "a" }, .ok "left"),
         ({ channel_id := -101, channel_username := "b" }, .ok "unknown"),
         ({ channel_id := -102, channel_username := "c" }, .gatewayError)] =
      (false,
        [{ channel_id := -100, channel_username := "a" },
         { channel_id := -102, channel_username := "c" }]) := by
  refine ⟨?_, by decide, by decide, by decide, by decide, by decide, by decide,
    by decide, by decide⟩
  simp [check_user_subscribed]

/-- Claim C9: when the gateway-side delivery fails, the request aborts
without mutating any record — the user row (files_accessed_count,
files_accessed, last_access) and the file row (download_count,
last_downloaded_at) are returned unchanged, and the outcome is never
delivered. -/
theorem c9_gateway_failure_frame (fileOpt : Option FileRecord)
    (userOpt : Option UserRecord) (now : Int) :
    (send_file_to_user fileOpt userOpt false now).user = userOpt ∧
    (send_file_to_user fileOpt userOpt false now).file = fileOpt ∧
    (send_file_to_user fileOpt userOpt false now).outcome ≠ .delivered := by
  cases fileOpt with
  | none => simp [send_file_to_user]
  | some f =>
    cases userOpt with
    | none => simp [send_file_to_user]
    | some u =>
      by_cases hc : u.files_accessed_count ≥ 3
      · simp [send_file_to_user, hc]
      · simp [send_file_to_user, hc]

/-- Claim C10: every rejection path of the bot-side verification callback —
token missing, user mismatch, expired, already completed, wrong state, too
fast — leaves both the token row and the user entitlement row entirely
unchanged; only an accept mutates either. -/
theorem c10_rejection_frame (tokenOpt : Option TokenRecord) (u : UserRecord)
    (uid hours now : Int)
    (h : (handle_verification_callback tokenOpt u uid hours now).outcome
      ≠ .verifiedOk) :
    (handle_verification_callback tokenOpt u uid hours now).token = tokenOpt ∧
    (handle_verification_callback tokenOpt u uid hours now).user = u := by
  cases tokenOpt with
  | none => simp [handle_verification_callback]
  | some t =>
    simp only [handle_verification_callback] at h ⊢
    split_ifs at h ⊢ <;> simp_all

/-- Claim C10 theorem applied at a concrete rejected input (missing
token). -/
theorem c10_rejection_frame_witness :
    (handle_verification_callback none sampleUser 42 24 1010).token = none ∧
    (handle_verification_callback none sampleUser 42 24 1010).user = sampleUser :=
  c10_rejection_frame none sampleUser 42 24 1010 (by decide)
